import Mathlib

/-!
Verification of the Guest Lifecycle & Access-Control subsystem of the
event-manager backend (Express + Mongoose).

The embedding translates, line by line:
* `backend/models/Guest.js` (the mongoose schema, its instance methods
  `canEnter` / `registerEntry` / `registerGift`, and the `pre('save')`
  qr-generating hook together with mongoose 7's save pipeline, whose
  built-in `validateBeforeSave` hook is unshifted in front of all user
  pre-save hooks);
* `backend/controllers/guestController.js` (all guest handlers);
* `backend/middleware/errorHandler.js` (`AppError`, `errorHandler`,
  `checkGuestAccess`, `canManageGuests`);
* `backend/routes/guestRoutes.js` (the middleware/controller composition).

Mongo documents are lists of `Guest` records; `Date.now()`, fresh
ObjectIds and `Math.random()` are external effects and enter as explicit
parameters.  HTTP responses are reduced to their status code plus the
resulting store.
-/

/-- User.role: the `role` enum of the User schema (`admin` / `staff`). -/
inductive Role where
  | admin
  | staff
deriving DecidableEq

/-- The authenticated principal placed on `req.user` by the `protect`
middleware: its `_id` and `role`. -/
structure Principal where
  id : Nat
  role : Role
deriving DecidableEq

/-- Guest.ticketType: `enum: ['vip', 'general', 'invitacion']`. -/
inductive TicketType where
  | vip
  | general
  | invitacion
deriving DecidableEq

/-- Guest.status: `enum: ['pendiente', 'ingresado', 'cancelado']`. -/
inductive GuestStatus where
  | pendiente
  | ingresado
  | cancelado
deriving DecidableEq

/-- A persisted Guest document (backend/models/Guest.js).  `_id` is the
Mongo ObjectId, modelled as a `Nat`; timestamps are `Nat`s; nullable
fields are `Option`s. -/
structure Guest where
  id : Nat
  name : String
  email : String
  phone : Option String
  ticketType : TicketType
  qrCode : String
  status : GuestStatus
  gift : Option String
  entryTime : Option Nat
  createdBy : Nat
  createdAt : Nat
deriving DecidableEq

/-- The Guest collection. -/
abbrev GuestStore := List Guest

/-- Model of `Guest.findById(id)`: the unique document whose `_id`
matches (Mongo returns at most one since `_id` is unique). -/
def findById : GuestStore → Nat → Option Guest
  | [], _ => none
  | x :: xs, i => if x.id = i then some x else findById xs i

/-- Model of `doc.save()` on an existing document: mongoose issues
`updateOne({_id: doc._id})`, which replaces the (first, and by the
unique `_id` index only) matching document. -/
def saveGuest : GuestStore → Guest → GuestStore
  | [], _ => []
  | x :: xs, g => if x.id = g.id then g :: xs else x :: saveGuest xs g

/-- Model of `guest.remove()`: `deleteOne({_id})`, removing the (first)
document with the matching `_id`. -/
def removeGuest : GuestStore → Nat → GuestStore
  | [], _ => []
  | x :: xs, i => if x.id = i then xs else x :: removeGuest xs i

/-- A thrown JavaScript error as seen by the express error middleware:
its `name`, `message`, mongo `code`, `statusCode` and the
`isOperational` flag set by `AppError`. -/
structure JsError where
  name : String
  message : String
  code : Option Nat
  statusCode : Option Nat
  isOperational : Bool
deriving DecidableEq

/-- `new AppError(message, statusCode)` from errorHandler.js: an
operational error carrying an explicit status code. -/
def AppError (message : String) (statusCode : Nat) : JsError :=
  { name := "Error", message := message, code := none,
    statusCode := some statusCode, isOperational := true }

/-- A plain `new Error(message)` (thrown by the Guest model methods):
no `statusCode`, `isOperational` undefined (falsy). -/
def plainJsError (message : String) : JsError :=
  { name := "Error", message := message, code := none,
    statusCode := none, isOperational := false }

/-- A mongoose `ValidationError` (`err.name === 'ValidationError'`). -/
def validationJsError (message : String) : JsError :=
  { name := "ValidationError", message := message, code := none,
    statusCode := none, isOperational := false }

/-- A mongo duplicate-key error (`err.code === 11000`), raised by the
unique index on `qrCode`. -/
def dupKeyJsError : JsError :=
  { name := "MongoServerError", message := "E11000 duplicate key", code := some 11000,
    statusCode := none, isOperational := false }

/-- The `errorHandler` middleware of errorHandler.js, reduced to the
HTTP status it responds with: ValidationError and duplicate-key map to
400, JWT errors to 401, operational `AppError`s to their own
`statusCode` (`err.statusCode || 500`), everything else to the default
500 response. -/
def errorHandlerStatus (e : JsError) : Nat :=
  if e.name = "ValidationError" then 400
  else if e.code = some 11000 then 400
  else if e.name = "JsonWebTokenError" then 401
  else if e.name = "TokenExpiredError" then 401
  else if e.isOperational then (e.statusCode.getD 500)
  else 500

/-- An HTTP response, reduced to the status code sent plus the state of
the Guest collection afterwards. -/
structure ApiResult where
  status : Nat
  store : GuestStore
deriving DecidableEq

/-- The `asyncHandler` wrapping: a controller either responds or
rejects, and a rejection is passed to `errorHandler`, which responds
without the controller having mutated the store. -/
def handleCtrl (store : GuestStore) : Except JsError (Nat × GuestStore) → ApiResult
  | .ok r => { status := r.1, store := r.2 }
  | .error e => { status := errorHandlerStatus e, store := store }

/-- guestSchema.methods.canEnter: `this.status === 'pendiente'`. -/
def Guest.canEnter (g : Guest) : Bool :=
  match g.status with
  | .pendiente => true
  | _ => false

/-- guestSchema.methods.registerEntry: throws a plain Error unless
`canEnter()`, otherwise sets `status = 'ingresado'`,
`entryTime = new Date()` and saves; the updated document is returned
and persisted by the caller via `saveGuest`. -/
def Guest.registerEntryMethod (g : Guest) (now : Nat) : Except JsError Guest :=
  if g.canEnter = false then
    .error (plainJsError "El invitado ya ha ingresado o su entrada esta cancelada")
  else
    .ok { g with status := .ingresado, entryTime := some now }

/-- guestSchema.methods.registerGift: throws a plain Error unless
`ticketType === 'invitacion'`, otherwise sets `gift` and saves. -/
def Guest.registerGiftMethod (g : Guest) (giftDescription : String) : Except JsError Guest :=
  if g.ticketType ≠ .invitacion then
    .error (plainJsError "Solo los invitados con tipo invitacion pueden registrar regalos")
  else
    .ok { g with gift := some giftDescription }

/-- The `checkGuestAccess` middleware: 404 when the guest does not
exist, pass when the user is admin or `guest.createdBy` equals the
user's `_id`, otherwise 403.  `none` means "call next()". -/
def checkGuestAccess (user : Principal) (id : Nat) (store : GuestStore) : Option Nat :=
  match findById store id with
  | none => some 404
  | some g => if user.role = .admin ∨ g.createdBy = user.id then none else some 403

/-- The `canManageGuests` middleware: role must be admin or staff. -/
def canManageGuests (user : Principal) : Bool :=
  match user.role with
  | .admin => true
  | .staff => true

/-- The request body of `createGuest`: the controller destructures
exactly `name`, `email`, `phone`, `ticketType` (no `qrCode`). -/
structure CreateInput where
  name : String
  email : String
  phone : Option String
  ticketType : TicketType
deriving DecidableEq

/-- A Guest document freshly constructed by `Guest.create`, before the
save pipeline has run: `qrCode` may still be absent. -/
structure NewGuestDoc where
  id : Nat
  name : String
  email : String
  phone : Option String
  ticketType : TicketType
  qrCode : Option String
  status : GuestStatus
  gift : Option String
  entryTime : Option Nat
  createdBy : Nat
  createdAt : Nat
deriving DecidableEq

/-- Mongoose document validation of a new Guest: `required` fails on a
missing value and on an empty string (`name`, `email` carry the `trim`
setter applied at assignment, before validation); `qrCode` is
`required: true`; `ticketType` and `status` are enum-typed; `createdBy`
is present by construction. -/
def validateNewGuest (d : NewGuestDoc) : Bool :=
  decide (d.name ≠ "") && decide (d.email ≠ "") &&
    (match d.qrCode with
     | some q => decide (q ≠ "")
     | none => false)

/-- The user `pre('save')` hook of Guest.js: when `!this.qrCode`
(absent or empty), assign `Date.now().toString(36)` plus `'-'` plus a
random base-36 suffix; the two externally produced strings enter as
parameters. -/
def qrPreSaveHook (d : NewGuestDoc) (tsStr randStr : String) : NewGuestDoc :=
  match d.qrCode with
  | none => { d with qrCode := some (tsStr ++ "-" ++ randStr) }
  | some q => if q = "" then { d with qrCode := some (tsStr ++ "-" ++ randStr) } else d

/-- The mongoose 7 save pipeline for a new document: the built-in
`validateBeforeSave` pre-save hook is registered with `unshift`, so
document validation runs BEFORE the user `pre('save')` hook above; then
the unique index on `qrCode` rejects duplicates; then the document is
inserted. -/
def saveNewGuest (d : NewGuestDoc) (tsStr randStr : String) (store : GuestStore) :
    Except JsError (Guest × GuestStore) :=
  if validateNewGuest d = false then
    .error (validationJsError "Error de validacion del invitado")
  else
    let d2 := qrPreSaveHook d tsStr randStr
    let qr := d2.qrCode.getD ""
    if store.any (fun x => decide (x.qrCode = qr)) then
      .error dupKeyJsError
    else
      let g : Guest :=
        { id := d2.id, name := d2.name, email := d2.email, phone := d2.phone,
          ticketType := d2.ticketType, qrCode := qr, status := d2.status,
          gift := d2.gift, entryTime := d2.entryTime, createdBy := d2.createdBy,
          createdAt := d2.createdAt }
      .ok (g, store ++ [g])

/-- guestController.createGuest: builds the document from the request
body (schema setters trim `name`/`phone` and trim+lowercase `email`)
with `createdBy = req.user._id`, schema defaults
`status = 'pendiente'`, `gift = null`, `entryTime = null`,
`createdAt = Date.now`, and NO `qrCode`, then runs `Guest.create`. -/
def createGuestCtrl (user : Principal) (input : CreateInput)
    (newId now : Nat) (tsStr randStr : String) (store : GuestStore) :
    Except JsError (Nat × GuestStore) :=
  let d : NewGuestDoc :=
    { id := newId, name := input.name.trim,
      email := (input.email.trim.map Char.toLower),
      phone := input.phone.map String.trim,
      ticketType := input.ticketType, qrCode := none,
      status := .pendiente, gift := none, entryTime := none,
      createdBy := user.id, createdAt := now }
  match saveNewGuest d tsStr randStr store with
  | .error e => .error e
  | .ok r => .ok (201, r.2)

/-- guestController.getGuest: 404 when absent, 403 when
`role !== 'admin' && createdBy !== user.id`, else 200. -/
def getGuestCtrl (user : Principal) (id : Nat) (store : GuestStore) :
    Except JsError (Nat × GuestStore) :=
  match findById store id with
  | none => .error (AppError "Invitado no encontrado" 404)
  | some g =>
    if user.role ≠ .admin ∧ g.createdBy ≠ user.id then
      .error (AppError "No autorizado para ver este invitado" 403)
    else
      .ok (200, store)

/-- A PUT /guests/:id request body: every schema path the caller may
put in `req.body`, each optional.  `findByIdAndUpdate` treats the body
as a `$set` of exactly the present fields. -/
structure GuestPatch where
  name : Option String := none
  email : Option String := none
  phone : Option String := none
  ticketType : Option TicketType := none
  qrCode : Option String := none
  status : Option GuestStatus := none
  gift : Option (Option String) := none
  entryTime : Option (Option Nat) := none
  createdBy : Option Nat := none
  createdAt : Option Nat := none
deriving DecidableEq

/-- The empty request body. -/
def emptyPatch : GuestPatch := {}

/-- `runValidators: true` on the update: validators run on the updated
paths only; `required` rejects an empty (trimmed) `name`, `email` or
`qrCode`; the enum paths are well-typed by construction. -/
def validPatch (p : GuestPatch) : Bool :=
  (match p.name with
   | some s => decide (s.trim ≠ "")
   | none => true) &&
  (match p.email with
   | some s => decide (s.trim ≠ "")
   | none => true) &&
  (match p.qrCode with
   | some s => decide (s ≠ "")
   | none => true)

/-- `findByIdAndUpdate(id, req.body)`: `$set` of each present field,
with the schema setters (trim, lowercase) applied. -/
def applyPatch (g : Guest) (p : GuestPatch) : Guest :=
  { g with
    name := match p.name with
            | some s => s.trim
            | none => g.name,
    email := match p.email with
             | some s => s.trim.map Char.toLower
             | none => g.email,
    phone := match p.phone with
             | some s => some s.trim
             | none => g.phone,
    ticketType := p.ticketType.getD g.ticketType,
    qrCode := p.qrCode.getD g.qrCode,
    status := p.status.getD g.status,
    gift := match p.gift with
            | some v => v
            | none => g.gift,
    entryTime := match p.entryTime with
                 | some v => v
                 | none => g.entryTime,
    createdBy := p.createdBy.getD g.createdBy,
    createdAt := p.createdAt.getD g.createdAt }

/-- guestController.updateGuest: 404 when absent, 403 when
`role !== 'admin' && createdBy !== user.id`, then
`findByIdAndUpdate(id, req.body, {new: true, runValidators: true})`;
a validator failure raises ValidationError, a `qrCode` collision with
another document raises the duplicate-key error. -/
def updateGuestCtrl (user : Principal) (id : Nat) (p : GuestPatch) (store : GuestStore) :
    Except JsError (Nat × GuestStore) :=
  match findById store id with
  | none => .error (AppError "Invitado no encontrado" 404)
  | some g =>
    if user.role ≠ .admin ∧ g.createdBy ≠ user.id then
      .error (AppError "No autorizado para actualizar este invitado" 403)
    else if validPatch p = false then
      .error (validationJsError "Error de validacion del invitado")
    else if store.any (fun x =>
        decide (x.id ≠ (applyPatch g p).id ∧ x.qrCode = (applyPatch g p).qrCode)) then
      .error dupKeyJsError
    else
      .ok (200, saveGuest store (applyPatch g p))

/-- guestController.deleteGuest: 404 when absent, 403 when
`role !== 'admin' && createdBy !== user.id`, then `guest.remove()`. -/
def deleteGuestCtrl (user : Principal) (id : Nat) (store : GuestStore) :
    Except JsError (Nat × GuestStore) :=
  match findById store id with
  | none => .error (AppError "Invitado no encontrado" 404)
  | some g =>
    if user.role ≠ .admin ∧ g.createdBy ≠ user.id then
      .error (AppError "No autorizado para eliminar este invitado" 403)
    else
      .ok (200, removeGuest store g.id)

/-- guestController.registerEntry: 404 when absent, then the
controller's own `canEnter` guard raising `AppError(..., 400)`, then
`guest.registerEntry()` (which succeeds, the guard having passed).
Note the controller itself performs no ownership check. -/
def registerEntryCtrl (_user : Principal) (id now : Nat) (store : GuestStore) :
    Except JsError (Nat × GuestStore) :=
  match findById store id with
  | none => .error (AppError "Invitado no encontrado" 404)
  | some g =>
    if g.canEnter = false then
      .error (AppError "El invitado ya ha ingresado o su entrada esta cancelada" 400)
    else
      match g.registerEntryMethod now with
      | .error e => .error e
      | .ok g2 => .ok (200, saveGuest store g2)

/-- guestController.registerGift: 404 when absent, then directly
`guest.registerGift(gift)` — there is no ticket-type guard in the
controller, so the model method's plain Error propagates to
`errorHandler`. -/
def registerGiftCtrl (_user : Principal) (id : Nat) (gift : String) (store : GuestStore) :
    Except JsError (Nat × GuestStore) :=
  match findById store id with
  | none => .error (AppError "Invitado no encontrado" 404)
  | some g =>
    match g.registerGiftMethod gift with
    | .error e => .error e
    | .ok g2 => .ok (200, saveGuest store g2)

/-- Route GET /guests/:id — `checkGuestAccess` then `getGuest`. -/
def getGuestRoute (user : Principal) (id : Nat) (store : GuestStore) : ApiResult :=
  match checkGuestAccess user id store with
  | some st => { status := st, store := store }
  | none => handleCtrl store (getGuestCtrl user id store)

/-- Route PUT /guests/:id — `checkGuestAccess` then `updateGuest`. -/
def updateGuestRoute (user : Principal) (id : Nat) (p : GuestPatch) (store : GuestStore) :
    ApiResult :=
  match checkGuestAccess user id store with
  | some st => { status := st, store := store }
  | none => handleCtrl store (updateGuestCtrl user id p store)

/-- Route DELETE /guests/:id — `checkGuestAccess` then `deleteGuest`. -/
def deleteGuestRoute (user : Principal) (id : Nat) (store : GuestStore) : ApiResult :=
  match checkGuestAccess user id store with
  | some st => { status := st, store := store }
  | none => handleCtrl store (deleteGuestCtrl user id store)

/-- Route POST /guests/:id/entry — `checkGuestAccess` then
`registerEntry`. -/
def registerEntryRoute (user : Principal) (id now : Nat) (store : GuestStore) : ApiResult :=
  match checkGuestAccess user id store with
  | some st => { status := st, store := store }
  | none => handleCtrl store (registerEntryCtrl user id now store)

/-- Route POST /guests/:id/gift — `checkGuestAccess` then
`registerGift`. -/
def registerGiftRoute (user : Principal) (id : Nat) (gift : String) (store : GuestStore) :
    ApiResult :=
  match checkGuestAccess user id store with
  | some st => { status := st, store := store }
  | none => handleCtrl store (registerGiftCtrl user id gift store)

/-- Route POST /guests — `canManageGuests` then `createGuest`. -/
def createGuestRoute (user : Principal) (input : CreateInput)
    (newId now : Nat) (tsStr randStr : String) (store : GuestStore) : ApiResult :=
  if canManageGuests user then
    handleCtrl store (createGuestCtrl user input newId now tsStr randStr store)
  else
    { status := 403, store := store }

/-- The StatsReport produced by the `$group` stage of
`getGuestStats`. -/
structure StatsReport where
  totalGuests : Nat
  enteredGuests : Nat
  pendingGuests : Nat
  vipGuests : Nat
  generalGuests : Nat
  invitacionGuests : Nat
  giftsRegistered : Nat
deriving DecidableEq

/-- The `$eq ['$status', 'ingresado']` condition. -/
def isEntered (g : Guest) : Bool :=
  match g.status with
  | .ingresado => true
  | _ => false

/-- The `$eq ['$status', 'pendiente']` condition. -/
def isPending (g : Guest) : Bool :=
  match g.status with
  | .pendiente => true
  | _ => false

/-- The `$eq ['$ticketType', 'vip']` condition. -/
def isVip (g : Guest) : Bool :=
  match g.ticketType with
  | .vip => true
  | _ => false

/-- The `$eq ['$ticketType', 'general']` condition. -/
def isGeneral (g : Guest) : Bool :=
  match g.ticketType with
  | .general => true
  | _ => false

/-- The `$eq ['$ticketType', 'invitacion']` condition. -/
def isInvitacion (g : Guest) : Bool :=
  match g.ticketType with
  | .invitacion => true
  | _ => false

/-- The `$ne ['$gift', null]` condition. -/
def hasGift (g : Guest) : Bool :=
  match g.gift with
  | some _ => true
  | none => false

/-- The all-zero report the controller substitutes when the aggregation
yields no group (`stats[0] || {...0}`). -/
def zeroStats : StatsReport :=
  { totalGuests := 0, enteredGuests := 0, pendingGuests := 0, vipGuests := 0,
    generalGuests := 0, invitacionGuests := 0, giftsRegistered := 0 }

/-- One document's contribution to the `$group` accumulators:
`$sum: 1` for the total and `$sum: {$cond: [...]}` for each counter. -/
def statsAccum (r : StatsReport) (g : Guest) : StatsReport :=
  { totalGuests := r.totalGuests + 1,
    enteredGuests := r.enteredGuests + (if isEntered g then 1 else 0),
    pendingGuests := r.pendingGuests + (if isPending g then 1 else 0),
    vipGuests := r.vipGuests + (if isVip g then 1 else 0),
    generalGuests := r.generalGuests + (if isGeneral g then 1 else 0),
    invitacionGuests := r.invitacionGuests + (if isInvitacion g then 1 else 0),
    giftsRegistered := r.giftsRegistered + (if hasGift g then 1 else 0) }

/-- `Guest.aggregate([{ $group: {_id: null, ...} }])`: over an empty
collection the stage emits no group (empty array); otherwise one group
accumulating every document. -/
def guestAggregate (store : GuestStore) : Option StatsReport :=
  match store with
  | [] => none
  | _ => some (store.foldl statsAccum zeroStats)

/-- guestController.getGuestStats: always responds 200 with
`stats[0] || {all seven counters zero}`.  The /stats route carries no
role or ownership middleware beyond `protect`. -/
def getGuestStats (store : GuestStore) : Nat × StatsReport :=
  (200, (guestAggregate store).getD zeroStats)

/-!
Concrete fixtures used by witnesses and counterexamples, mirroring the
guests of the repository's own test suite.
-/

/-- The admin principal. -/
def adminUser : Principal := { id := 1, role := .admin }

/-- A staff principal, creator of the demo guests. -/
def staffA : Principal := { id := 10, role := .staff }

/-- A second, distinct staff principal. -/
def staffB : Principal := { id := 11, role := .staff }

/-- A pending general-ticket guest created by staffA. -/
def demoGuest : Guest :=
  { id := 1, name := "Ana", email := "ana@x.com", phone := none,
    ticketType := .general, qrCode := "qr-1", status := .pendiente,
    gift := none, entryTime := none, createdBy := 10, createdAt := 100 }

/-- A pending vip guest created by staffA. -/
def vipGuest : Guest :=
  { id := 2, name := "Test Guest", email := "test@example.com",
    phone := some "1234567890", ticketType := .vip, qrCode := "qr-2",
    status := .pendiente, gift := none, entryTime := none,
    createdBy := 10, createdAt := 100 }

/-- A guest that has already entered. -/
def enteredGuest : Guest :=
  { id := 3, name := "Eva", email := "eva@x.com", phone := none,
    ticketType := .general, qrCode := "qr-3", status := .ingresado,
    gift := none, entryTime := some 50, createdBy := 10, createdAt := 100 }

/-- A one-guest demo store. -/
def demoStore : GuestStore := [demoGuest]

/-- The empty PUT body as a fixture. -/
def namePatch : GuestPatch := { emptyPatch with name := some "Ana Maria" }

/-- A PUT body that only rewrites `qrCode`. -/
def qrOverwritePatch : GuestPatch := { emptyPatch with qrCode := some "qr-X" }

/-- A PUT body that only rewrites `status` back to `pendiente`. -/
def statusRevertPatch : GuestPatch := { emptyPatch with status := some .pendiente }

/-- The creation body of the repository's own test
('Should create new guest'): no `qrCode` supplied. -/
def testCreateInput : CreateInput :=
  { name := "Test Guest", email := "test@example.com",
    phone := some "1234567890", ticketType := .vip }

/-- One step of the status state machine as the spec words it: the
status is unchanged, or moves from `pendiente` to `ingresado`. -/
def guestStatusStep (a b : GuestStatus) : Prop :=
  b = a ∨ (a = .pendiente ∧ b = .ingresado)

/-- N sequential (serialized) POST /entry calls by the same principal
on the same id: the list of response statuses, each call running on the
store the previous one left. -/
def repeatEntryCalls (user : Principal) (id now : Nat) : Nat → GuestStore → List Nat
  | 0, _ => []
  | n + 1, store =>
    (registerEntryRoute user id now store).status ::
      repeatEntryCalls user id now n (registerEntryRoute user id now store).store

/-- One concurrent `registerEntry` handler, reduced to its interaction
with the shared guest document: the controller first awaits
`Guest.findById` (taking a local copy of `status`), then, if the copy
says `pendiente`, awaits `save()` (writing `ingresado`) and responds
200, else responds 400.  Between the two awaits the event loop may run
another handler. -/
inductive EntryClient where
  | start
  | readDone (localStatus : GuestStatus)
  | finished (ok : Bool)
deriving DecidableEq

/-- Execute one step of one handler against the shared `status`. -/
def entryClientStep (s : GuestStatus) (c : EntryClient) : GuestStatus × EntryClient :=
  match c with
  | .start => (s, .readDone s)
  | .readDone ls =>
    match ls with
    | .pendiente => (.ingresado, .finished true)
    | _ => (s, .finished false)
  | .finished b => (s, .finished b)

/-- Run an interleaving: the schedule names, step by step, which of the
handlers the event loop advances. -/
def runEntrySchedule : List Nat → GuestStatus × List EntryClient → GuestStatus × List EntryClient
  | [], st => st
  | i :: rest, (s, cs) =>
    match cs[i]? with
    | none => runEntrySchedule rest (s, cs)
    | some c => runEntrySchedule rest ((entryClientStep s c).1, cs.set i (entryClientStep s c).2)

/-!
Store lemmas: behaviour of `findById` under `saveGuest` and
`removeGuest`.
-/

/-- A found guest carries the queried id. -/
lemma findById_eq_id : ∀ (store : GuestStore) (i : Nat) (g : Guest),
    findById store i = some g → g.id = i := by
  intro store i g h
  induction store with
  | nil => simp [findById] at h
  | cons x xs ih =>
    by_cases hx : x.id = i
    · simp only [findById, if_pos hx] at h
      injection h with h2
      exact h2 ▸ hx
    · simp only [findById, if_neg hx] at h
      exact ih h

/-- Saving a document with the queried id makes `findById` return it. -/
lemma findById_saveGuest_self (s : GuestStore) (i : Nat) (g h : Guest)
    (hf : findById s i = some g) (hid : h.id = i) :
    findById (saveGuest s h) i = some h := by
  induction s with
  | nil => simp [findById] at hf
  | cons x xs ih =>
    by_cases hx : x.id = i
    · have : x.id = h.id := by omega
      simp [saveGuest, this, findById, hid]
    · have hxh : ¬ x.id = h.id := by omega
      simp [findById, hx] at hf
      simp [saveGuest, hxh, findById, hx]
      exact ih hf

/-- Saving a document does not affect lookups of other ids. -/
lemma findById_saveGuest_other (s : GuestStore) (i : Nat) (h : Guest)
    (hne : i ≠ h.id) :
    findById (saveGuest s h) i = findById s i := by
  induction s with
  | nil => simp [saveGuest]
  | cons x xs ih =>
    by_cases hx : x.id = h.id
    · have hxi : ¬ x.id = i := by omega
      have hhi : ¬ h.id = i := by omega
      simp [saveGuest, hx, findById, hxi, hhi]
    · by_cases hxi : x.id = i
      · simp [saveGuest, hx, findById, hxi, hne]
      · simp [saveGuest, hx, findById, hxi, hne]
        exact ih

/-- Removing a document does not affect lookups of other ids. -/
lemma findById_removeGuest_other (s : GuestStore) (i j : Nat)
    (hne : i ≠ j) :
    findById (removeGuest s j) i = findById s i := by
  induction s with
  | nil => simp [removeGuest]
  | cons x xs ih =>
    by_cases hx : x.id = j
    · have hxi : ¬ x.id = i := by omega
      simp [removeGuest, hx, findById, hxi, Ne.symm hne]
    · by_cases hxi : x.id = i
      · simp [removeGuest, hx, findById, hxi, hne]
      · simp [removeGuest, hx, findById, hxi, hne]
        exact ih

/-- An id that occurs on no document is not found. -/
lemma findById_not_mem (s : GuestStore) (i : Nat)
    (h : i ∉ s.map Guest.id) : findById s i = none := by
  induction s with
  | nil => simp [findById]
  | cons x xs ih =>
    simp only [List.map_cons, List.mem_cons] at h
    push_neg at h
    have hx : ¬ x.id = i := fun hc => h.1 hc.symm
    simp [findById, hx]
    exact ih h.2

/-- With the unique `_id` index (no duplicate ids), a removed document
is gone. -/
lemma findById_removeGuest_self (s : GuestStore) (j : Nat)
    (hnd : (s.map Guest.id).Nodup) :
    findById (removeGuest s j) j = none := by
  induction s with
  | nil => simp [removeGuest, findById]
  | cons x xs ih =>
    simp only [List.map_cons, List.nodup_cons] at hnd
    by_cases hx : x.id = j
    · simp only [removeGuest, if_pos hx]
      apply findById_not_mem
      rw [← hx]
      exact hnd.1
    · simp [removeGuest, hx, findById]
      exact ih hnd.2

/-!
Error-handler lemmas.
-/

/-- An operational `AppError` is answered with its own status code. -/
lemma errorHandlerStatus_AppError (m : String) (c : Nat) :
    errorHandlerStatus (AppError m c) = c := by
  simp [errorHandlerStatus, AppError]

/-- A plain `Error` falls through to the default 500 response. -/
lemma errorHandlerStatus_plain (m : String) :
    errorHandlerStatus (plainJsError m) = 500 := by
  simp [errorHandlerStatus, plainJsError]

/-- A mongoose ValidationError is answered with 400. -/
lemma errorHandlerStatus_validation (m : String) :
    errorHandlerStatus (validationJsError m) = 400 := by
  simp [errorHandlerStatus, validationJsError]

/-- A duplicate-key error is answered with 400. -/
lemma errorHandlerStatus_dup : errorHandlerStatus dupKeyJsError = 400 := by
  simp [errorHandlerStatus, dupKeyJsError]

/-!
Characterisation of the POST /guests/:id/entry route.
-/

/-- A pending guest: `canEnter` is true. -/
lemma canEnter_of_pendiente (g : Guest) (hp : g.status = .pendiente) :
    g.canEnter = true := by
  unfold Guest.canEnter
  rw [hp]

/-- A non-pending guest: `canEnter` is false. -/
lemma canEnter_eq_false (g : Guest) (hnp : g.status ≠ .pendiente) :
    g.canEnter = false := by
  unfold Guest.canEnter
  cases h : g.status
  · exact absurd h hnp
  · rfl
  · rfl

/-- Authorized entry registration on a pending guest: 200, and the
stored document becomes `ingresado` with `entryTime` set. -/
lemma registerEntryRoute_success (user : Principal) (store : GuestStore)
    (id now : Nat) (g : Guest)
    (hf : findById store id = some g)
    (hauth : user.role = .admin ∨ g.createdBy = user.id)
    (hp : g.status = .pendiente) :
    registerEntryRoute user id now store =
      { status := 200,
        store := saveGuest store { g with status := .ingresado, entryTime := some now } } := by
  have hce := canEnter_of_pendiente g hp
  simp [registerEntryRoute, checkGuestAccess, registerEntryCtrl, Guest.registerEntryMethod,
        handleCtrl, hf, hce, hauth]

/-- Authorized entry registration on a non-pending guest: 400 and the
store is untouched. -/
lemma registerEntryRoute_fail (user : Principal) (store : GuestStore)
    (id now : Nat) (g : Guest)
    (hf : findById store id = some g)
    (hauth : user.role = .admin ∨ g.createdBy = user.id)
    (hnp : g.status ≠ .pendiente) :
    registerEntryRoute user id now store = { status := 400, store := store } := by
  have hce := canEnter_eq_false g hnp
  simp [registerEntryRoute, checkGuestAccess, registerEntryCtrl, handleCtrl,
        hf, hce, hauth, errorHandlerStatus_AppError]

/-- A guest able to enter is pending. -/
lemma pendiente_of_canEnter (g : Guest) (h : g.canEnter = true) :
    g.status = .pendiente := by
  unfold Guest.canEnter at h
  cases hs : g.status
  · rfl
  · rw [hs] at h
    exact absurd h (by simp)
  · rw [hs] at h
    exact absurd h (by simp)

/-!
Store effect of each route: either the collection is untouched, or the
specific successful write happened.
-/

/-- `createGuest` never changes the collection: the document is built
without a `qrCode` and mongoose validation (which runs before the user
pre-save hook) rejects it. -/
lemma createGuestRoute_store (user : Principal) (input : CreateInput)
    (newId now : Nat) (tsStr randStr : String) (store : GuestStore) :
    (createGuestRoute user input newId now tsStr randStr store).store = store := by
  unfold createGuestRoute
  split
  · simp [createGuestCtrl, saveNewGuest, validateNewGuest, handleCtrl]
  · rfl


/-- GET leaves the collection untouched. -/
lemma getGuestRoute_store (user : Principal) (id : Nat) (store : GuestStore) :
    (getGuestRoute user id store).store = store := by
  unfold getGuestRoute checkGuestAccess handleCtrl getGuestCtrl
  cases hf : findById store id with
  | none => rfl
  | some g =>
    by_cases hauth : user.role = .admin ∨ g.createdBy = user.id
    · by_cases hown : user.role ≠ .admin ∧ g.createdBy ≠ user.id
      · simp [hf, hauth, hown]
      · simp [hf, hauth, hown]
    · simp [hf, hauth]

/-- PUT either leaves the collection untouched or overwrites the found
document with the patched one. -/
lemma updateGuestRoute_store_cases (user : Principal) (id : Nat) (p : GuestPatch)
    (store : GuestStore) :
    (updateGuestRoute user id p store).store = store ∨
    ∃ g, findById store id = some g ∧
      (updateGuestRoute user id p store).store = saveGuest store (applyPatch g p) := by
  unfold updateGuestRoute checkGuestAccess handleCtrl updateGuestCtrl
  cases hf : findById store id with
  | none => left; rfl
  | some g =>
    by_cases hauth : user.role = .admin ∨ g.createdBy = user.id
    · by_cases hown : user.role ≠ .admin ∧ g.createdBy ≠ user.id
      · left
        simp [hf, hauth, hown]
      · by_cases hv : validPatch p = false
        · left
          simp [hf, hauth, hown, hv]
        · by_cases hd : ∃ x ∈ store,
              ¬x.id = (applyPatch g p).id ∧ x.qrCode = (applyPatch g p).qrCode
          · left
            simp [hf, hauth, hown, hv, hd]
          · right
            refine ⟨g, rfl, ?_⟩
            simp [hf, hauth, hown, hv, hd]
    · left
      simp [hf, hauth]

/-- DELETE either leaves the collection untouched or removes the found
document. -/
lemma deleteGuestRoute_store_cases (user : Principal) (id : Nat) (store : GuestStore) :
    (deleteGuestRoute user id store).store = store ∨
    ∃ g, findById store id = some g ∧
      (deleteGuestRoute user id store).store = removeGuest store g.id := by
  unfold deleteGuestRoute checkGuestAccess handleCtrl deleteGuestCtrl
  cases hf : findById store id with
  | none => left; rfl
  | some g =>
    by_cases hauth : user.role = .admin ∨ g.createdBy = user.id
    · by_cases hown : user.role ≠ .admin ∧ g.createdBy ≠ user.id
      · left
        simp [hf, hauth, hown]
      · right
        refine ⟨g, rfl, ?_⟩
        simp [hf, hauth, hown]
    · left
      simp [hf, hauth]

/-- POST /entry either leaves the collection untouched or flips the
found pending document to `ingresado` with `entryTime` set. -/
lemma registerEntryRoute_store_cases (user : Principal) (id now : Nat) (store : GuestStore) :
    (registerEntryRoute user id now store).store = store ∨
    ∃ g, findById store id = some g ∧ g.status = .pendiente ∧
      (registerEntryRoute user id now store).store =
        saveGuest store { g with status := .ingresado, entryTime := some now } := by
  unfold registerEntryRoute checkGuestAccess handleCtrl registerEntryCtrl
    Guest.registerEntryMethod
  cases hf : findById store id with
  | none => left; rfl
  | some g =>
    by_cases hauth : user.role = .admin ∨ g.createdBy = user.id
    · by_cases hce : g.canEnter = false
      · left
        simp [hf, hauth, hce]
      · right
        have hce2 : g.canEnter = true := by
          revert hce
          cases g.canEnter <;> simp
        refine ⟨g, rfl, pendiente_of_canEnter g hce2, ?_⟩
        simp [hf, hauth, hce2]
    · left
      simp [hf, hauth]

/-- POST /gift either leaves the collection untouched or overwrites the
found document's `gift`. -/
lemma registerGiftRoute_store_cases (user : Principal) (id : Nat) (gift : String)
    (store : GuestStore) :
    (registerGiftRoute user id gift store).store = store ∨
    ∃ g, findById store id = some g ∧
      (registerGiftRoute user id gift store).store =
        saveGuest store { g with gift := some gift } := by
  unfold registerGiftRoute checkGuestAccess handleCtrl registerGiftCtrl
    Guest.registerGiftMethod
  cases hf : findById store id with
  | none => left; rfl
  | some g =>
    by_cases hauth : user.role = .admin ∨ g.createdBy = user.id
    · by_cases ht : g.ticketType = .invitacion
      · right
        refine ⟨g, rfl, ?_⟩
        simp [hf, hauth, ht]
      · left
        simp [hf, hauth, ht]
    · left
      simp [hf, hauth]

/-!
Claim theorems.
-/

/-- Claim C1: for an existing Guest and an authorized principal,
`registerEntry` succeeds (200) if and only if the Guest's status is
`pendiente` immediately before the call; on success the stored Guest
becomes `ingresado` with `entryTime` set to a non-null timestamp, and a
second `registerEntry` on the same Guest fails with the
InvalidTransition `AppError` (HTTP 400). -/
theorem registerEntry_state_machine (user : Principal) (store : GuestStore)
    (id now now2 : Nat) (g : Guest)
    (hf : findById store id = some g)
    (hauth : user.role = .admin ∨ g.createdBy = user.id) :
    ((registerEntryRoute user id now store).status = 200 ↔ g.status = .pendiente)
    ∧ (g.status = .pendiente →
        findById (registerEntryRoute user id now store).store id =
          some { g with status := .ingresado, entryTime := some now }
        ∧ (registerEntryRoute user id now2
            (registerEntryRoute user id now store).store).status = 400) := by
  constructor
  · constructor
    · intro h200
      by_contra hnp
      rw [registerEntryRoute_fail user store id now g hf hauth hnp] at h200
      simp at h200
    · intro hp
      rw [registerEntryRoute_success user store id now g hf hauth hp]
  · intro hp
    have hid := findById_eq_id store id g hf
    have hfind2 : findById (registerEntryRoute user id now store).store id =
        some { g with status := .ingresado, entryTime := some now } := by
      rw [registerEntryRoute_success user store id now g hf hauth hp]
      exact findById_saveGuest_self store id g _ hf hid
    refine ⟨hfind2, ?_⟩
    rw [registerEntryRoute_fail user (registerEntryRoute user id now store).store id now2
      { g with status := .ingresado, entryTime := some now } hfind2 hauth (by simp)]

/-- Witness for C1 at a concrete pending guest and its owner. -/
theorem registerEntry_state_machine_witness :
    findById demoStore 1 = some demoGuest ∧
    (((registerEntryRoute staffA 1 5 demoStore).status = 200 ↔ demoGuest.status = .pendiente)
    ∧ (demoGuest.status = .pendiente →
        findById (registerEntryRoute staffA 1 5 demoStore).store 1 =
          some { demoGuest with status := .ingresado, entryTime := some 5 }
        ∧ (registerEntryRoute staffA 1 7
            (registerEntryRoute staffA 1 5 demoStore).store).status = 400)) :=
  ⟨by decide, registerEntry_state_machine staffA demoStore 1 5 7 demoGuest (by decide) (by decide)⟩

/-- Claim C2 (code bug): on a `vip` guest, `registerGift` does NOT
answer 400.  The model method throws a plain `Error` without
`isOperational`/`statusCode`, so `errorHandler` falls through to the
default 500 response, contradicting the repository's own test, which
expects 400 for gift registration on non-invitacion guests. -/
theorem registerGift_nonInvitacion_responds_500 :
    registerGiftRoute staffA 2 "Test Gift" [vipGuest] =
      { status := 500, store := [vipGuest] } := by
  decide

/-- Claim C8 (code bug): creating a guest without supplying `qrCode` —
which the controller never supplies — is rejected with a
ValidationError (400) and nothing is stored: mongoose validates the
`required` `qrCode` path before the user `pre('save')` hook that would
generate it. -/
theorem createGuest_rejected_without_qrCode :
    createGuestRoute staffA testCreateInput 99 1000 "m9zq" "ab12cd" [] =
      { status := 400, store := [] } := by
  simp [createGuestRoute, canManageGuests, staffA, createGuestCtrl, saveNewGuest,
        validateNewGuest, handleCtrl, errorHandlerStatus, validationJsError]

/-- Claim C6: when no Guest with the target id exists, each of the five
id-targeting operations answers 404 for EVERY principal — the existence
check of `checkGuestAccess` runs before its ownership check, so 404
takes precedence over 403. -/
theorem notFound_before_forbidden (user : Principal) (store : GuestStore)
    (id now : Nat) (p : GuestPatch) (gift : String)
    (hf : findById store id = none) :
    getGuestRoute user id store = { status := 404, store := store } ∧
    updateGuestRoute user id p store = { status := 404, store := store } ∧
    deleteGuestRoute user id store = { status := 404, store := store } ∧
    registerEntryRoute user id now store = { status := 404, store := store } ∧
    registerGiftRoute user id gift store = { status := 404, store := store } := by
  unfold getGuestRoute updateGuestRoute deleteGuestRoute registerEntryRoute
    registerGiftRoute checkGuestAccess
  rw [hf]
  exact ⟨rfl, rfl, rfl, rfl, rfl⟩

/-- Witness for C6: a missing id answers 404 even to a non-owner. -/
theorem notFound_before_forbidden_witness :
    findById demoStore 99 = none ∧
    (getGuestRoute staffB 99 demoStore = { status := 404, store := demoStore } ∧
     updateGuestRoute staffB 99 namePatch demoStore = { status := 404, store := demoStore } ∧
     deleteGuestRoute staffB 99 demoStore = { status := 404, store := demoStore } ∧
     registerEntryRoute staffB 99 5 demoStore = { status := 404, store := demoStore } ∧
     registerGiftRoute staffB 99 "Book" demoStore = { status := 404, store := demoStore }) :=
  ⟨by decide, notFound_before_forbidden staffB demoStore 99 5 namePatch "Book" (by decide)⟩

/-- Claim C10: on an empty Guest Store the stats endpoint still answers
200 and returns the explicit all-zero report (the `stats[0] || default`
fallback), not an empty result. -/
theorem computeStats_empty_zeros :
    getGuestStats [] =
      (200, { totalGuests := 0, enteredGuests := 0, pendingGuests := 0, vipGuests := 0,
              generalGuests := 0, invitacionGuests := 0, giftsRegistered := 0 }) := by
  rfl

/-- Claim C3 counterexample: an authorized update whose body contains
`qrCode` DOES change the stored `qrCode` — the controller passes
`req.body` unfiltered to `findByIdAndUpdate`, so `qrCode`, `createdBy`
and `createdAt` are not immutable under update. -/
theorem updateGuest_changes_qrCode :
    (updateGuestRoute adminUser 1 qrOverwritePatch demoStore).status = 200 ∧
    (findById (updateGuestRoute adminUser 1 qrOverwritePatch demoStore).store 1).map
      Guest.qrCode = some "qr-X" ∧
    demoGuest.qrCode = "qr-1" := by
  decide

/-- Claim C3 amended: `qrCode`, `createdBy` and `createdAt` are
preserved by update exactly when the request body does not contain
those fields; fields named in the body, these included, are written. -/
theorem update_preserves_protected_fields (user : Principal) (uid id : Nat)
    (p : GuestPatch) (store : GuestStore) (g g2 : Guest)
    (hq : p.qrCode = none) (hc : p.createdBy = none) (ha : p.createdAt = none)
    (hf : findById store id = some g)
    (hf2 : findById (updateGuestRoute user uid p store).store id = some g2) :
    g2.qrCode = g.qrCode ∧ g2.createdBy = g.createdBy ∧ g2.createdAt = g.createdAt := by
  rcases updateGuestRoute_store_cases user uid p store with h | ⟨g0, hf0, heq⟩
  · rw [h, hf] at hf2
    injection hf2 with h2
    rw [← h2]
    exact ⟨rfl, rfl, rfl⟩
  · have hid0 := findById_eq_id store uid g0 hf0
    by_cases huid : uid = id
    · subst huid
      rw [hf0] at hf
      injection hf with hgg
      have hself : findById (saveGuest store (applyPatch g0 p)) uid =
          some (applyPatch g0 p) :=
        findById_saveGuest_self store uid g0 _ hf0 hid0
      rw [heq, hself] at hf2
      injection hf2 with h2
      rw [← h2, ← hgg]
      refine ⟨?_, ?_, ?_⟩
      · simp [applyPatch, hq]
      · simp [applyPatch, hc]
      · simp [applyPatch, ha]
    · rw [heq] at hf2
      rw [findById_saveGuest_other store id (applyPatch g0 p)
        (by simp [applyPatch]; omega)] at hf2
      rw [hf] at hf2
      injection hf2 with h2
      rw [← h2]
      exact ⟨rfl, rfl, rfl⟩

/-- Witness for C3 amended: an update whose body only touches `status`
leaves `qrCode`, `createdBy`, `createdAt` as they were. -/
theorem update_preserves_protected_fields_witness :
    statusRevertPatch.qrCode = none ∧
    (let g2 := applyPatch demoGuest statusRevertPatch
     g2.qrCode = demoGuest.qrCode ∧ g2.createdBy = demoGuest.createdBy ∧
       g2.createdAt = demoGuest.createdAt) :=
  ⟨by decide,
   update_preserves_protected_fields adminUser 1 1 statusRevertPatch demoStore
     demoGuest (applyPatch demoGuest statusRevertPatch)
     (by decide) (by decide) (by decide) (by decide) (by decide)⟩

/-- Claim C4 counterexample: an authorized update whose body contains
`status` moves a guest already `ingresado` back to `pendiente` — the
unfiltered `findByIdAndUpdate` body makes the transition system not
one-way. -/
theorem update_can_revert_status :
    enteredGuest.status = .ingresado ∧
    (findById (updateGuestRoute adminUser 3 statusRevertPatch [enteredGuest]).store 3).map
      Guest.status = some .pendiente := by
  decide

/-- Claim C4 amended: status transitions are monotonic one-way
(`pendiente` to `ingresado` being the only change) under create,
delete, registerEntry, registerGift, and those updates whose body does
not contain `status`; only an update body naming `status` can break
this. -/
theorem status_monotone_without_status_patch (store : GuestStore)
    (hnd : (store.map Guest.id).Nodup) (id : Nat) (g : Guest)
    (hf : findById store id = some g) :
    (∀ user input newId now tsStr randStr g2,
        findById (createGuestRoute user input newId now tsStr randStr store).store id
          = some g2 → guestStatusStep g.status g2.status) ∧
    (∀ user uid p g2, p.status = none →
        findById (updateGuestRoute user uid p store).store id = some g2 →
        guestStatusStep g.status g2.status) ∧
    (∀ user uid g2,
        findById (deleteGuestRoute user uid store).store id = some g2 →
        guestStatusStep g.status g2.status) ∧
    (∀ user uid now g2,
        findById (registerEntryRoute user uid now store).store id = some g2 →
        guestStatusStep g.status g2.status) ∧
    (∀ user uid gift g2,
        findById (registerGiftRoute user uid gift store).store id = some g2 →
        guestStatusStep g.status g2.status) := by
  refine ⟨?_, ?_, ?_, ?_, ?_⟩
  · intro user input newId now tsStr randStr g2 h2
    rw [createGuestRoute_store, hf] at h2
    injection h2 with h3
    exact Or.inl (by rw [← h3])
  · intro user uid p g2 hps h2
    rcases updateGuestRoute_store_cases user uid p store with h | ⟨g0, hf0, heq⟩
    · rw [h, hf] at h2
      injection h2 with h3
      exact Or.inl (by rw [← h3])
    · have hid0 := findById_eq_id store uid g0 hf0
      by_cases huid : uid = id
      · subst huid
        rw [hf0] at hf
        injection hf with hgg
        rw [heq, findById_saveGuest_self store uid g0 (applyPatch g0 p) hf0 hid0] at h2
        injection h2 with h3
        refine Or.inl ?_
        rw [← h3, ← hgg]
        simp [applyPatch, hps]
      · rw [heq, findById_saveGuest_other store id _ (by simp [applyPatch]; omega),
          hf] at h2
        injection h2 with h3
        exact Or.inl (by rw [← h3])
  · intro user uid g2 h2
    rcases deleteGuestRoute_store_cases user uid store with h | ⟨g0, hf0, heq⟩
    · rw [h, hf] at h2
      injection h2 with h3
      exact Or.inl (by rw [← h3])
    · have hid0 := findById_eq_id store uid g0 hf0
      by_cases huid : uid = id
      · subst huid
        have hnone : findById (removeGuest store g0.id) uid = none := by
          rw [hid0]
          exact findById_removeGuest_self store uid hnd
        rw [heq, hnone] at h2
        exact absurd h2 (by simp)
      · rw [heq, findById_removeGuest_other store id g0.id (by omega), hf] at h2
        injection h2 with h3
        exact Or.inl (by rw [← h3])
  · intro user uid now g2 h2
    rcases registerEntryRoute_store_cases user uid now store with h | ⟨g0, hf0, hp0, heq⟩
    · rw [h, hf] at h2
      injection h2 with h3
      exact Or.inl (by rw [← h3])
    · have hid0 := findById_eq_id store uid g0 hf0
      by_cases huid : uid = id
      · subst huid
        rw [hf0] at hf
        injection hf with hgg
        rw [heq, findById_saveGuest_self store uid g0
          { g0 with status := .ingresado, entryTime := some now } hf0 hid0] at h2
        injection h2 with h3
        refine Or.inr ⟨?_, ?_⟩
        · rw [← hgg]
          exact hp0
        · rw [← h3]
      · rw [heq, findById_saveGuest_other store id _ (by simp; omega), hf] at h2
        injection h2 with h3
        exact Or.inl (by rw [← h3])
  · intro user uid gift g2 h2
    rcases registerGiftRoute_store_cases user uid gift store with h | ⟨g0, hf0, heq⟩
    · rw [h, hf] at h2
      injection h2 with h3
      exact Or.inl (by rw [← h3])
    · have hid0 := findById_eq_id store uid g0 hf0
      by_cases huid : uid = id
      · subst huid
        rw [hf0] at hf
        injection hf with hgg
        rw [heq, findById_saveGuest_self store uid g0
          { g0 with gift := some gift } hf0 hid0] at h2
        injection h2 with h3
        refine Or.inl ?_
        rw [← h3, ← hgg]
      · rw [heq, findById_saveGuest_other store id _ (by simp; omega), hf] at h2
        injection h2 with h3
        exact Or.inl (by rw [← h3])

/-- Witness for C4 amended: a successful registerEntry on the demo
store is the allowed `pendiente` to `ingresado` step. -/
theorem status_monotone_witness :
    ((demoStore.map Guest.id).Nodup ∧ findById demoStore 1 = some demoGuest) ∧
    guestStatusStep demoGuest.status
      ({ demoGuest with status := .ingresado, entryTime := some 5 } : Guest).status :=
  ⟨⟨by decide, by decide⟩,
   (status_monotone_without_status_patch demoStore (by decide) 1 demoGuest
      (by decide)).2.2.2.1 adminUser 1 5
      { demoGuest with status := .ingresado, entryTime := some 5 } (by decide)⟩

/-- Claim C5: a staff principal that did not create the Guest gets 403
from every id-targeting operation with the store left unchanged, while
an admin is never answered 403 by any of them. -/
theorem ownership_isolation (user : Principal) (store : GuestStore) (id now : Nat)
    (p : GuestPatch) (gift : String) (g : Guest) :
    (user.role = .staff → findById store id = some g → g.createdBy ≠ user.id →
      getGuestRoute user id store = { status := 403, store := store } ∧
      updateGuestRoute user id p store = { status := 403, store := store } ∧
      deleteGuestRoute user id store = { status := 403, store := store } ∧
      registerEntryRoute user id now store = { status := 403, store := store } ∧
      registerGiftRoute user id gift store = { status := 403, store := store }) ∧
    (user.role = .admin →
      (getGuestRoute user id store).status ≠ 403 ∧
      (updateGuestRoute user id p store).status ≠ 403 ∧
      (deleteGuestRoute user id store).status ≠ 403 ∧
      (registerEntryRoute user id now store).status ≠ 403 ∧
      (registerGiftRoute user id gift store).status ≠ 403) := by
  constructor
  · intro hrole hf hne
    have hcond : ¬(user.role = .admin ∨ g.createdBy = user.id) := by
      rintro (h | h)
      · rw [hrole] at h
        exact Role.noConfusion h
      · exact hne h
    have hden : checkGuestAccess user id store = some 403 := by
      unfold checkGuestAccess
      rw [hf]
      simp [hcond]
    refine ⟨?_, ?_, ?_, ?_, ?_⟩
    · unfold getGuestRoute
      rw [hden]
    · unfold updateGuestRoute
      rw [hden]
    · unfold deleteGuestRoute
      rw [hden]
    · unfold registerEntryRoute
      rw [hden]
    · unfold registerGiftRoute
      rw [hden]
  · intro hadm
    refine ⟨?_, ?_, ?_, ?_, ?_⟩
    · unfold getGuestRoute checkGuestAccess handleCtrl getGuestCtrl
      cases hfind : findById store id with
      | none => simp
      | some g0 => simp [hadm]
    · unfold updateGuestRoute checkGuestAccess handleCtrl updateGuestCtrl
      cases hfind : findById store id with
      | none => simp
      | some g0 =>
        by_cases hv : validPatch p = false
        · simp [hadm, hv, errorHandlerStatus_validation]
        · by_cases hd : ∃ x ∈ store,
              ¬x.id = (applyPatch g0 p).id ∧ x.qrCode = (applyPatch g0 p).qrCode
          · simp [hadm, hv, hd, errorHandlerStatus_dup]
          · simp [hadm, hv, hd]
    · unfold deleteGuestRoute checkGuestAccess handleCtrl deleteGuestCtrl
      cases hfind : findById store id with
      | none => simp
      | some g0 => simp [hadm]
    · unfold registerEntryRoute checkGuestAccess handleCtrl registerEntryCtrl
        Guest.registerEntryMethod
      cases hfind : findById store id with
      | none => simp
      | some g0 =>
        by_cases hce : g0.canEnter = false
        · simp [hadm, hce, errorHandlerStatus_AppError]
        · simp [hadm, hce]
    · unfold registerGiftRoute checkGuestAccess handleCtrl registerGiftCtrl
        Guest.registerGiftMethod
      cases hfind : findById store id with
      | none => simp
      | some g0 =>
        by_cases ht : g0.ticketType = .invitacion
        · simp [hadm, ht]
        · simp [hadm, ht, errorHandlerStatus_plain]

/-- Witness for C5: staffB (not the creator) gets 403 on the demo
guest; the admin does not. -/
theorem ownership_isolation_witness :
    (staffB.role = .staff ∧ findById demoStore 1 = some demoGuest ∧
      demoGuest.createdBy ≠ staffB.id) ∧
    getGuestRoute staffB 1 demoStore = { status := 403, store := demoStore } ∧
    (getGuestRoute adminUser 1 demoStore).status ≠ 403 :=
  ⟨⟨rfl, by decide, by decide⟩,
   ((ownership_isolation staffB demoStore 1 5 emptyPatch "Book" demoGuest).1
      rfl (by decide) (by decide)).1,
   ((ownership_isolation adminUser demoStore 1 5 emptyPatch "Book" demoGuest).2 rfl).1⟩

/-- The aggregation over a nonempty collection is the fold. -/
lemma guestAggregate_cons (g : Guest) (t : GuestStore) :
    guestAggregate (g :: t) = some ((g :: t).foldl statsAccum zeroStats) := rfl

/-- The `$group` fold computes, on top of any accumulator, the length
and the per-condition counts of the collection. -/
lemma statsFoldl (store : GuestStore) (r : StatsReport) :
    store.foldl statsAccum r =
      { totalGuests := r.totalGuests + store.length,
        enteredGuests := r.enteredGuests + store.countP isEntered,
        pendingGuests := r.pendingGuests + store.countP isPending,
        vipGuests := r.vipGuests + store.countP isVip,
        generalGuests := r.generalGuests + store.countP isGeneral,
        invitacionGuests := r.invitacionGuests + store.countP isInvitacion,
        giftsRegistered := r.giftsRegistered + store.countP hasGift } := by
  induction store generalizing r with
  | nil => simp
  | cons g t ih =>
    rw [List.foldl_cons, ih]
    simp only [statsAccum, List.countP_cons, List.length_cons, StatsReport.mk.injEq]
    split_ifs <;> omega

/-- Claim C7: for every state of the Guest Store, the stats report is
exact — total is the number of stored Guests, entered/pending count the
statuses, vip/general/invitacion count the ticket types, and
giftsRegistered counts the non-null gifts. -/
theorem computeStats_counts (store : GuestStore) :
    getGuestStats store =
      (200,
        { totalGuests := store.length,
          enteredGuests := store.countP isEntered,
          pendingGuests := store.countP isPending,
          vipGuests := store.countP isVip,
          generalGuests := store.countP isGeneral,
          invitacionGuests := store.countP isInvitacion,
          giftsRegistered := store.countP hasGift }) := by
  cases store with
  | nil => rfl
  | cons g t =>
    unfold getGuestStats
    rw [guestAggregate_cons, Option.getD_some, statsFoldl]
    simp [zeroStats]

/-- Claim C9 counterexample: the interleaving in which both handlers
read the shared status before either writes makes BOTH of two
concurrent `registerEntry` calls succeed — the check-then-act in the
code is not atomic, so it is not true that exactly one of N concurrent
calls succeeds. -/
theorem concurrent_registerEntry_double_success :
    ((runEntrySchedule [0, 1, 0, 1]
        (.pendiente, [.start, .start])).2.count (.finished true)) = 2 := by
  decide

/-- Serialized repetition against an already non-pending guest: every
call answers 400 and nothing changes. -/
lemma repeatEntryCalls_all_fail (user : Principal) (id now : Nat) (store : GuestStore)
    (g : Guest) (hf : findById store id = some g)
    (hauth : user.role = .admin ∨ g.createdBy = user.id)
    (hnp : g.status ≠ .pendiente) :
    ∀ n, repeatEntryCalls user id now n store = List.replicate n 400 := by
  intro n
  induction n with
  | zero => rfl
  | succ k ih =>
    have hfail := registerEntryRoute_fail user store id now g hf hauth hnp
    simp only [repeatEntryCalls, hfail, ih, List.replicate_succ]

/-- Claim C9 amended: when the N calls are serialized (each completes
before the next starts), exactly one answers 200 and the other N−1
answer 400. -/
theorem serialized_registerEntry_single_success (user : Principal) (store : GuestStore)
    (id now : Nat) (n : Nat) (g : Guest)
    (hf : findById store id = some g)
    (hauth : user.role = .admin ∨ g.createdBy = user.id)
    (hp : g.status = .pendiente) :
    (repeatEntryCalls user id now (n + 1) store).count 200 = 1 ∧
    (repeatEntryCalls user id now (n + 1) store).count 400 = n := by
  have hsucc := registerEntryRoute_success user store id now g hf hauth hp
  have hid := findById_eq_id store id g hf
  have hf2 : findById (saveGuest store { g with status := .ingresado, entryTime := some now })
      id = some { g with status := .ingresado, entryTime := some now } :=
    findById_saveGuest_self store id g
      { g with status := .ingresado, entryTime := some now } hf hid
  have hrest := repeatEntryCalls_all_fail user id now
    (saveGuest store { g with status := .ingresado, entryTime := some now })
    { g with status := .ingresado, entryTime := some now } hf2 hauth (by simp) n
  simp only [repeatEntryCalls, hsucc]
  rw [hrest]
  simp [List.count_cons, List.count_replicate]

/-- Witness for C9 amended at three serialized calls on the pending
demo guest. -/
theorem serialized_registerEntry_witness :
    (demoGuest.status = .pendiente ∧ findById demoStore 1 = some demoGuest) ∧
    (repeatEntryCalls staffA 1 5 3 demoStore).count 200 = 1 ∧
    (repeatEntryCalls staffA 1 5 3 demoStore).count 400 = 2 :=
  ⟨⟨by decide, by decide⟩,
   serialized_registerEntry_single_success staffA demoStore 1 5 2 demoGuest
     (by decide) (by decide) (by decide)⟩
